import Mathlib

/-!
Shallow embedding of the conversation engine of the chatbot repository:
`chatbot/agent.py` (intent classifier, entity extractor, state machine,
response dispatcher), `chatbot/calculator.py` (arithmetic), and the
outlet directory `database/outlets_db.py` (fixed sample table plus the
pattern-matching text-to-SQL lookup, embedded as the composition of
`convert_to_sql` with `execute_query` over the fixed table).

Modelling conventions:
- Python floats in this code are exact decimals with at most two places
  for all confidence scores, so scores are embedded as natural numbers
  in hundredths (0.8 maps to 80, 0.95 to 95).  Numbers parsed from user
  queries and the calculator work over ℚ.
- Python `dict` insertion order with in-place overwrite (the intent
  score table) is embedded as an association list with `setScore`;
  Python `max(..., key=...)` returns the first maximal element, embedded
  as `pyMaxStep` folds.
- Python truthiness of optional strings (`if outlet:`, `x or y`) is
  embedded by `optTruthy` (None and "" are falsy).
- The timestamp `str(datetime.now())` is clock input, threaded as an
  explicit argument; the product-search collaborator (`chatbot/rag.py`,
  a network-backed vector search) is threaded as a function argument.
- Exceptions: every handler in the source catches its exceptions and
  returns a string, and the embedded lookup/calculator are total, so
  `respond` is a total function returning the new memory and the reply.
-/

namespace Chatbot

/-- Python substring test `sub in s` on strings. -/
def containsSub (s sub : String) : Bool :=
  (List.range (s.length + 1)).any (fun i => sub.toList.isPrefixOf (s.toList.drop i))

/-- Python `str.lower()` (ASCII case mapping suffices for this code base). -/
def lowerStr (s : String) : String :=
  String.mk (s.toList.map Char.toLower)

/-- Characters Python's default `str.strip()` removes. -/
def pyWhitespace (c : Char) : Bool :=
  c = ' ' ∨ c = '\t' ∨ c = '\n' ∨ c = '\r' ∨ c = '\x0b' ∨ c = '\x0c'

/-- Python `not query or not query.strip()`: empty or whitespace-only. -/
def pyStrBlank (s : String) : Bool :=
  s.toList.all pyWhitespace

/-- Python `str.title()`: a letter after a non-letter is uppercased, other
letters lowercased (ASCII view, enough for the location names used here). -/
def titleStr (s : String) : String :=
  String.mk (s.toList.foldl
    (fun (acc : List Char × Bool) c =>
      if c.isAlpha then
        (acc.1 ++ [if acc.2 then c.toLower else c.toUpper], true)
      else
        (acc.1 ++ [c], false))
    ([], false)).1

/-- Python truthiness of an optional string: None and "" are falsy. -/
def optTruthy : Option String → Bool
  | none => false
  | some s => decide (s ≠ "")

/-- Python `any(keyword in q for keyword in ks)`. -/
def anyKeyword (q : String) (ks : List String) : Bool :=
  ks.any (fun k => containsSub q k)

/-- Intent enum of `agent.py`. -/
inductive Intent where
  | OUTLET_INQUIRY
  | TIME_INQUIRY
  | CALCULATION
  | PRODUCT_SEARCH
  | GREETING
  | UNKNOWN
deriving DecidableEq, Repr

/-- The `.value` strings of the Intent enum. -/
def Intent.value : Intent → String
  | .OUTLET_INQUIRY => "outlet_inquiry"
  | .TIME_INQUIRY => "time_inquiry"
  | .CALCULATION => "calculation"
  | .PRODUCT_SEARCH => "product_search"
  | .GREETING => "greeting"
  | .UNKNOWN => "unknown"

/-- ConversationState enum of `agent.py`. -/
inductive ConversationState where
  | INITIAL
  | LOCATION_CONFIRMED
  | OUTLET_CONFIRMED
  | COMPLETED
deriving DecidableEq, Repr

/-- Position of a state along the INITIAL to COMPLETED chain of the spec. -/
def stateRank : ConversationState → Nat
  | .INITIAL => 0
  | .LOCATION_CONFIRMED => 1
  | .OUTLET_CONFIRMED => 2
  | .COMPLETED => 3

/-- One entry of `conversation_history` (see `add_interaction`). -/
structure HistoryEntry where
  user_input : String
  bot_response : String
  intent : String
  timestamp : String
deriving DecidableEq, Repr

/-- The `ConversationMemory` dataclass.  Confidence scores in hundredths. -/
structure ConversationMemory where
  location : Option String := none
  outlet : Option String := none
  current_state : ConversationState := ConversationState.INITIAL
  conversation_history : List HistoryEntry := []
  confidence_score : Nat := 0
deriving DecidableEq, Repr

/-- A fresh agent's memory (the dataclass defaults). -/
def initialMemory : ConversationMemory := {}

/-- `ConversationMemory.add_interaction`; the timestamp `str(datetime.now())`
is clock input passed in by the caller. -/
def add_interaction (m : ConversationMemory)
    (user_input bot_response intent ts : String) : ConversationMemory :=
  { m with conversation_history :=
      m.conversation_history ++
        [{ user_input := user_input, bot_response := bot_response,
           intent := intent, timestamp := ts }] }

/-- `ConversationMemory.reset`: clears location, outlet, state, confidence;
does not touch `conversation_history`. -/
def ConversationMemory.reset (m : ConversationMemory) : ConversationMemory :=
  { m with location := none, outlet := none,
           current_state := ConversationState.INITIAL, confidence_score := 0 }

/-- `EnhancedChatbotAgent.reset_conversation` just resets the memory. -/
def reset_conversation (m : ConversationMemory) : ConversationMemory :=
  m.reset

/-- Keyword table of `detect_intent`: mathematical operations. -/
def math_keywords : List String :=
  ["add", "plus", "sum", "subtract", "minus", "multiply", "times", "divide",
   "divided", "calculate"]

/-- Keyword table of `detect_intent`: time inquiries. -/
def time_keywords : List String :=
  ["open", "time", "when", "hours", "schedule"]

/-- Keyword table of `detect_intent`: outlet inquiries. -/
def outlet_keywords : List String :=
  ["outlet", "branch", "store", "location", "where"]

/-- Keyword table of `detect_intent`: product search. -/
def product_keywords : List String :=
  ["product", "item", "buy", "price", "available", "show me", "coffee",
   "cup", "mug", "drinkware"]

/-- Keyword table of `detect_intent`: greeting. -/
def greeting_keywords : List String :=
  ["hello", "hi", "hey", "good morning", "good afternoon"]

/-- The outlet proper names `detect_intent` (and `update_state`) scan for.
Note this internal list is shorter than `supported_outlets`. -/
def outlet_names : List String :=
  ["ss 2", "ss2", "damansara", "bukit bintang", "subang", "puchong"]

/-- `supported_locations` of the agent constructor. -/
def supported_locations : List String :=
  ["petaling jaya", "kl", "kuala lumpur", "subang", "puchong"]

/-- `supported_outlets` of the agent constructor. -/
def supported_outlets : List String :=
  ["ss 2", "ss2", "damansara", "bukit bintang", "subang", "puchong",
   "1 utama", "one utama", "klcc", "mid valley", "ioi mall"]

/-- Python dict assignment `d[i] = v` on an insertion-ordered association
list: an existing key keeps its position, a new key is appended. -/
def setScore (l : List (Intent × Nat)) (i : Intent) (v : Nat) :
    List (Intent × Nat) :=
  if l.any (fun p => decide (p.1 = i)) then
    l.map (fun p => if p.1 = i then (i, v) else p)
  else
    l ++ [(i, v)]

/-- The `intent_scores` dict of `detect_intent` after the five keyword
checks, before the outlet-name override, in Python insertion order. -/
def baseScores (ql : String) : List (Intent × Nat) :=
  (if anyKeyword ql math_keywords then [(Intent.CALCULATION, 90)] else []) ++
  (if anyKeyword ql time_keywords then [(Intent.TIME_INQUIRY, 80)] else []) ++
  (if anyKeyword ql outlet_keywords then [(Intent.OUTLET_INQUIRY, 85)] else []) ++
  (if anyKeyword ql product_keywords then [(Intent.PRODUCT_SEARCH, 80)] else []) ++
  (if anyKeyword ql greeting_keywords then [(Intent.GREETING, 90)] else [])

/-- The `intent_scores` dict of `detect_intent` after all five keyword
checks and the outlet-name override, in Python insertion order. -/
def intentScores (query : String) : List (Intent × Nat) :=
  if anyKeyword (lowerStr query) outlet_names then
    setScore (baseScores (lowerStr query)) Intent.TIME_INQUIRY 90
  else
    baseScores (lowerStr query)

/-- One step of Python `max(items, key=lambda x: x[1])`: the running best is
replaced only by a strictly larger score, so the first maximum wins. -/
def pyMaxStep (best x : Intent × Nat) : Intent × Nat :=
  if best.2 < x.2 then x else best

/-- `EnhancedChatbotAgent.detect_intent`: highest-scoring intent with its
confidence (in hundredths), or UNKNOWN with 0 when nothing scored. -/
def detect_intent (query : String) : Intent × Nat :=
  match intentScores query with
  | [] => (Intent.UNKNOWN, 0)
  | p :: ps => ps.foldl pyMaxStep p

/-- Score of one intent in the score table (None when the key is absent). -/
def scoreOf (i : Intent) (l : List (Intent × Nat)) : Option Nat :=
  (l.find? (fun p => decide (p.1 = i))).map Prod.snd

/-- Digit run to a natural number. -/
def digitsToNat (ds : List Char) : Nat :=
  ds.foldl (fun n c => 10 * n + (c.toNat - '0'.toNat)) 0

/-- One attempted match of the regex `[-+]?\d*\.?\d+` anchored at the head
of the character list, with the backtracking preferences of Python `re`
(greedy digit run, optional dot only if digits follow it). -/
def matchNumAt (cs : List Char) : Option (List Char × List Char) :=
  let sgn : List Char × List Char :=
    match cs with
    | c :: r => if c = '+' ∨ c = '-' then ([c], r) else ([], cs)
    | [] => ([], [])
  let ds := sgn.2.takeWhile Char.isDigit
  let rest := sgn.2.dropWhile Char.isDigit
  if ds ≠ [] then
    match rest with
    | '.' :: r2 =>
      let fs := r2.takeWhile Char.isDigit
      if fs ≠ [] then some (sgn.1 ++ ds ++ '.' :: fs, r2.dropWhile Char.isDigit)
      else some (sgn.1 ++ ds, rest)
    | _ => some (sgn.1 ++ ds, rest)
  else
    match rest with
    | '.' :: r2 =>
      let fs := r2.takeWhile Char.isDigit
      if fs ≠ [] then some (sgn.1 ++ '.' :: fs, r2.dropWhile Char.isDigit)
      else none
    | _ => none

/-- Scanning loop of `re.findall`: try a match at each position, skip past a
found token, otherwise advance one character.  Fuel is the input length
(each step consumes at least one character). -/
def findallNumAux : Nat → List Char → List (List Char)
  | 0, _ => []
  | _, [] => []
  | fuel + 1, c :: cs =>
    match matchNumAt (c :: cs) with
    | some (tok, rest) => tok :: findallNumAux fuel rest
    | none => findallNumAux fuel cs

/-- `re.findall(r"[-+]?\d*\.?\d+", s)` as token character lists. -/
def findallNum (s : String) : List (List Char) :=
  findallNumAux s.toList.length s.toList

/-- Python `float(token)` for a token produced by the number regex,
as an exact rational. -/
def parseNumToken (cs : List Char) : ℚ :=
  let p : Bool × List Char :=
    match cs with
    | '-' :: r => (true, r)
    | '+' :: r => (false, r)
    | _ => (false, cs)
  let ds := p.2.takeWhile Char.isDigit
  let rest := p.2.dropWhile Char.isDigit
  let v : ℚ :=
    match rest with
    | '.' :: fs =>
      (digitsToNat ds : ℚ) +
        (digitsToNat (fs.takeWhile Char.isDigit) : ℚ) /
          ((10 : ℚ) ^ (fs.takeWhile Char.isDigit).length)
    | _ => (digitsToNat ds : ℚ)
  if p.1 then -v else v

/-- All numbers found in a query, in order of appearance. -/
def extractNumbers (q : String) : List ℚ :=
  (findallNum q).map parseNumToken

/-- The entity bag of `extract_entities`: the original query (`"_query"`),
at most one location, at most one outlet (first match in list order), and
the parsed numbers. -/
structure Entities where
  query : String
  location : Option String
  outlet : Option String
  numbers : List ℚ
deriving DecidableEq, Repr

/-- `EnhancedChatbotAgent.extract_entities`. -/
def extract_entities (query : String) : Entities :=
  let ql := lowerStr query
  { query := query
    location := supported_locations.find? (fun l => containsSub ql l)
    outlet := supported_outlets.find? (fun o => containsSub ql o)
    numbers := extractNumbers query }

/-- `EnhancedChatbotAgent.update_state`: the four transition rules,
first match wins, otherwise the memory is unchanged. -/
def update_state (m : ConversationMemory) (intent : Intent) (e : Entities) :
    ConversationMemory :=
  if intent = Intent.OUTLET_INQUIRY ∧ e.location.isSome = true then
    { m with location := e.location,
             current_state := ConversationState.LOCATION_CONFIRMED,
             confidence_score := 80 }
  else if intent = Intent.TIME_INQUIRY ∧ e.outlet.isSome = true then
    { m with outlet := e.outlet,
             current_state := ConversationState.OUTLET_CONFIRMED,
             confidence_score := 90 }
  else if intent = Intent.TIME_INQUIRY ∧ optTruthy m.outlet = true then
    { m with current_state := ConversationState.COMPLETED,
             confidence_score := 95 }
  else if intent = Intent.TIME_INQUIRY ∧ e.outlet.isNone = true then
    match outlet_names.find? (fun o => containsSub (lowerStr e.query) o) with
    | some o =>
      { m with outlet := some o,
               current_state := ConversationState.OUTLET_CONFIRMED,
               confidence_score := 90 }
    | none => m
  else m

/-- `calculator.calculate`: the four operations; raises (here: returns an
error) on division by zero and on an unsupported operator tag. -/
def calculate (a b : ℚ) (op : String) : Except String ℚ :=
  if op = "add" then Except.ok (a + b)
  else if op = "sub" then Except.ok (a - b)
  else if op = "mul" then Except.ok (a * b)
  else if op = "div" then
    if b = 0 then Except.error "Division by zero is not allowed."
    else Except.ok (a / b)
  else Except.error ("Unsupported operation: " ++ op)

/-- Operator detection of `handle_calculation`, in its fixed priority
order over the lower-cased query. -/
def detectOp (ql : String) : Option String :=
  if anyKeyword ql ["add", "plus", "sum", "+"] then some "add"
  else if anyKeyword ql ["subtract", "minus", "-"] then some "sub"
  else if anyKeyword ql ["multiply", "times", "*"] then some "mul"
  else if anyKeyword ql ["divide", "divided", "/"] then some "div"
  else none

/-- `EnhancedChatbotAgent.handle_calculation`.  A calculator error is caught
and turned into the apology string; the Python number rendering of the
success message is abstracted by the canonical rational rendering. -/
def handle_calculation (query : String) : String :=
  match extractNumbers query with
  | a :: b :: _ =>
    match detectOp (lowerStr query) with
    | some op =>
      match calculate a b op with
      | Except.ok r => "The answer is " ++ toString r ++ "."
      | Except.error _ => "Sorry, I couldn't calculate that. Please try again."
    | none =>
      "I couldn't understand the operation. Try 'add', 'subtract', 'multiply', or 'divide'."
  | _ => "I need two numbers to calculate. Try something like 'What is 4 plus 5?'"

/-- One row of the outlets table of `database/outlets_db.py`. -/
structure OutletRec where
  id : Nat
  name : String
  location : String
  address : String
  opening_hours : String
  phone : String
  services : String
deriving DecidableEq, Repr

/-- Sample row 1 of `init_database`. -/
def zusSS2 : OutletRec :=
  ⟨1, "ZUS Coffee SS2", "Petaling Jaya",
   "No. 1, Jalan SS2/24, SS2, 47300 Petaling Jaya",
   "7:00 AM - 11:00 PM", "+603-1234-5678", "Coffee, Food, WiFi"⟩

/-- Sample row 2 of `init_database`. -/
def zusDamansara : OutletRec :=
  ⟨2, "ZUS Coffee Damansara", "Petaling Jaya",
   "Damansara Uptown, 47400 Petaling Jaya",
   "8:30 AM - 10:30 PM", "+603-1234-5679", "Coffee, Food, WiFi, Drive-thru"⟩

/-- Sample row 3 of `init_database`. -/
def zusBukitBintang : OutletRec :=
  ⟨3, "ZUS Coffee Bukit Bintang", "Kuala Lumpur",
   "Lot 10, Bukit Bintang, 55100 Kuala Lumpur",
   "10:00 AM - 12:00 AM", "+603-1234-5680", "Coffee, Food, WiFi, 24/7"⟩

/-- Sample row 4 of `init_database`. -/
def zusSubang : OutletRec :=
  ⟨4, "ZUS Coffee Subang", "Subang Jaya",
   "Subang Parade, 47500 Subang Jaya",
   "9:30 AM - 10:00 PM", "+603-1234-5681", "Coffee, Food, WiFi"⟩

/-- Sample row 5 of `init_database`. -/
def zusPuchong : OutletRec :=
  ⟨5, "ZUS Coffee Puchong", "Puchong",
   "IOI Mall Puchong, 47100 Puchong",
   "8:00 AM - 11:00 PM", "+603-1234-5682", "Coffee, Food, WiFi, Delivery"⟩

/-- Sample row 6 of `init_database`. -/
def zusKLCC : OutletRec :=
  ⟨6, "ZUS Coffee KLCC", "Kuala Lumpur",
   "Suria KLCC, 50088 Kuala Lumpur",
   "9:00 AM - 10:00 PM", "+603-1234-5683", "Coffee, Food, WiFi, Premium"⟩

/-- Sample row 7 of `init_database`. -/
def zusMidValley : OutletRec :=
  ⟨7, "ZUS Coffee Mid Valley", "Kuala Lumpur",
   "Mid Valley Megamall, 59200 Kuala Lumpur",
   "10:00 AM - 10:00 PM", "+603-1234-5684", "Coffee, Food, WiFi"⟩

/-- Sample row 8 of `init_database`. -/
def zusOneUtama : OutletRec :=
  ⟨8, "ZUS Coffee 1 Utama", "Petaling Jaya",
   "1 Utama Shopping Centre, 47800 Petaling Jaya",
   "10:00 AM - 10:00 PM", "+603-1234-5685", "Coffee, Food, WiFi, Drive-thru"⟩

/-- The sample data `init_database` loads, in rowid order. -/
def sampleOutlets : List OutletRec :=
  [zusSS2, zusDamansara, zusBukitBintang, zusSubang,
   zusPuchong, zusKLCC, zusMidValley, zusOneUtama]

/-- `LOWER(location) LIKE '%pat%'` over the sample table. -/
def likeLocation (pat : String) : List OutletRec :=
  sampleOutlets.filter (fun r => containsSub (lowerStr r.location) pat)

/-- `LOWER(services) LIKE '%pat%'` over the sample table. -/
def likeServices (pat : String) : List OutletRec :=
  sampleOutlets.filter (fun r => containsSub (lowerStr r.services) pat)

/-- `LOWER(name) LIKE '%pat%'` over the sample table. -/
def likeName (pat : String) : List OutletRec :=
  sampleOutlets.filter (fun r => containsSub (lowerStr r.name) pat)

/-- `Text2SQLConverter.query_outlets`: `convert_to_sql`'s pattern chain
composed with executing the produced SQL over the fixed sample table. -/
def query_outlets (nl_query : String) : List OutletRec :=
  let ql := lowerStr nl_query
  if containsSub ql "all outlets" ∨ containsSub ql "list outlets" then sampleOutlets
  else if containsSub ql "petaling jaya" ∨ containsSub ql "pj" then
    likeLocation "petaling jaya"
  else if containsSub ql "kuala lumpur" ∨ containsSub ql "kl" then
    likeLocation "kuala lumpur"
  else if containsSub ql "subang" then likeLocation "subang"
  else if containsSub ql "puchong" then likeLocation "puchong"
  else if containsSub ql "drive-thru" ∨ containsSub ql "drive thru" then
    likeServices "drive"
  else if containsSub ql "24/7" ∨ containsSub ql "24 hours" then
    likeServices "24"
  else if containsSub ql "wifi" then likeServices "wifi"
  else if containsSub ql "delivery" then likeServices "delivery"
  else if containsSub ql "ss2" ∨ containsSub ql "ss 2" then
    sampleOutlets.filter (fun r =>
      containsSub (lowerStr r.name) "ss2" ∨ containsSub (lowerStr r.name) "ss 2")
  else if containsSub ql "damansara" then likeName "damansara"
  else if containsSub ql "bukit bintang" then likeName "bukit bintang"
  else sampleOutlets

/-- Memory effect of `handle_outlet_inquiry`: a location named in this
turn is written to memory and confirms the location. -/
def outlet_inquiry_mem (m : ConversationMemory) (e : Entities) :
    ConversationMemory :=
  match e.location with
  | some loc => { m with location := some loc,
                         current_state := ConversationState.LOCATION_CONFIRMED }
  | none => m

/-- `EnhancedChatbotAgent.handle_outlet_inquiry`: may confirm a location and
list the outlets found there. -/
def handle_outlet_inquiry (m : ConversationMemory) (e : Entities) :
    ConversationMemory × String :=
  match e.location with
  | some loc =>
    let m1 := { m with location := some loc,
                       current_state := ConversationState.LOCATION_CONFIRMED }
    match query_outlets ("outlets in " ++ loc) with
    | [] =>
      (m1, "I don't have information about outlets in " ++ titleStr loc ++
        ". Please try another location.")
    | rs =>
      (m1, "Yes! We have outlets in " ++ titleStr loc ++ ": " ++
        String.intercalate ", " (rs.map OutletRec.name) ++
        ". Which one are you interested in?")
  | none =>
    (m, "Which area are you interested in? We have outlets in Petaling Jaya, Kuala Lumpur, Subang, and Puchong.")

/-- Memory effect of `handle_time_inquiry`: an outlet named in this turn
is written to memory and confirms the outlet. -/
def time_inquiry_mem (m : ConversationMemory) (e : Entities) :
    ConversationMemory :=
  match e.outlet with
  | some o => { m with outlet := some o,
                       current_state := ConversationState.OUTLET_CONFIRMED }
  | none => m

/-- `EnhancedChatbotAgent.handle_time_inquiry`: confirms an outlet named in
this turn, else falls back to the remembered outlet, and reports the first
record the directory lookup returns. -/
def handle_time_inquiry (m : ConversationMemory) (e : Entities) :
    ConversationMemory × String :=
  let m1 := time_inquiry_mem m e
  let outlet := if optTruthy m1.outlet then m1.outlet else e.outlet
  if optTruthy outlet then
    let o := outlet.getD ""
    match query_outlets ("opening hours for " ++ o ++ " outlet") with
    | r :: _ =>
      (m1, "The " ++ r.name ++ " outlet opening hours: " ++ r.opening_hours ++ ".")
    | [] =>
      (m1, "I don't have information about the " ++ o ++
        " outlet. Please specify a valid outlet.")
  else
    (m1, "Which outlet are you asking about? Please specify the outlet name.")

/-- The fixed greeting reply of `handle_greeting`. -/
def greeting_message : String :=
  "Hello! I'm your AI assistant. I can help you with outlet information, calculations, and product searches. How can I help you today?"

/-- The fixed fallback reply of `respond` for UNKNOWN intent. -/
def unknown_message : String :=
  "I'm not sure how to help with that. I can assist with outlet information, calculations, and product searches. What would you like to know?"

/-- The per-intent branch of `respond`.  `rag` is the product-search
collaborator (`chatbot/rag.py`), threaded as a function. -/
def dispatch (rag : String → String) (m : ConversationMemory)
    (intent : Intent) (e : Entities) (query : String) :
    ConversationMemory × String :=
  if intent = Intent.CALCULATION then (m, handle_calculation query)
  else if intent = Intent.OUTLET_INQUIRY then handle_outlet_inquiry m e
  else if intent = Intent.TIME_INQUIRY then handle_time_inquiry m e
  else if intent = Intent.PRODUCT_SEARCH then (m, rag query)
  else if intent = Intent.GREETING then (m, greeting_message)
  else (m, unknown_message)

/-- `EnhancedChatbotAgent.respond`: input validation, classification,
extraction, state update, dispatch, history append.  Returns the new
memory and the reply.  `ts` is the clock input for the history entry. -/
def respond (rag : String → String) (m : ConversationMemory)
    (query ts : String) : ConversationMemory × String :=
  if pyStrBlank query then
    (m, "I didn't catch that. Could you please repeat your question?")
  else
    let intent := (detect_intent query).1
    let e := extract_entities query
    let m1 := update_state m intent e
    let r := dispatch rag m1 intent e query
    (add_interaction r.1 query r.2 intent.value ts, r.2)

/-- One external call on the agent: a `respond` turn or an explicit reset. -/
inductive Call where
  | respond (query ts : String)
  | reset
deriving DecidableEq, Repr

/-- Apply one call to the memory (replies discarded). -/
def stepCall (rag : String → String) (m : ConversationMemory) :
    Call → ConversationMemory
  | Call.respond q ts => (respond rag m q ts).1
  | Call.reset => reset_conversation m

/-- Run a sequence of calls from a given memory. -/
def runCalls (rag : String → String) (m : ConversationMemory)
    (calls : List Call) : ConversationMemory :=
  calls.foldl (stepCall rag) m

/-- The memory invariant of the spec: OUTLET_CONFIRMED and COMPLETED need a
non-null outlet, LOCATION_CONFIRMED needs a non-null location. -/
def memInv (m : ConversationMemory) : Prop :=
  ((m.current_state = ConversationState.OUTLET_CONFIRMED ∨
    m.current_state = ConversationState.COMPLETED) → m.outlet.isSome = true) ∧
  (m.current_state = ConversationState.LOCATION_CONFIRMED →
    m.location.isSome = true)

instance (m : ConversationMemory) : Decidable (memInv m) := by
  unfold memInv
  infer_instance

/-- Spec-side mapping for the follow-up reply: the database record that
belongs to a remembered outlet name, for the names the lookup resolves. -/
def recordForOutlet (o : String) : Option OutletRec :=
  if o = "ss 2" ∨ o = "ss2" then some zusSS2
  else if o = "damansara" then some zusDamansara
  else if o = "bukit bintang" then some zusBukitBintang
  else if o = "subang" then some zusSubang
  else if o = "puchong" then some zusPuchong
  else none

/-- A trivial product-search collaborator for concrete runs. -/
def rag0 : String → String := fun _ => ""

/-- Boolean error test of the embedded calculator result. -/
def calcIsError : Except String ℚ → Bool
  | Except.error _ => true
  | Except.ok _ => false

/-! Theorems -/

/-- C10: `reset_conversation` sets location and outlet to None, the state
to INITIAL and the confidence score to 0.0, and leaves the conversation
history exactly unchanged. -/
theorem C10_reset_frame (m : ConversationMemory) :
    (reset_conversation m).location = none ∧
    (reset_conversation m).outlet = none ∧
    (reset_conversation m).current_state = ConversationState.INITIAL ∧
    (reset_conversation m).confidence_score = 0 ∧
    (reset_conversation m).conversation_history = m.conversation_history := by
  refine ⟨rfl, rfl, rfl, rfl, rfl⟩

/-- C6: a query whose lower-cased text matches no keyword of the five
keyword sets and no outlet proper name is classified UNKNOWN with
confidence exactly 0.0 (0 in hundredths). -/
theorem C6_no_keyword_unknown (q : String)
    (h1 : anyKeyword (lowerStr q) math_keywords = false)
    (h2 : anyKeyword (lowerStr q) time_keywords = false)
    (h3 : anyKeyword (lowerStr q) outlet_keywords = false)
    (h4 : anyKeyword (lowerStr q) product_keywords = false)
    (h5 : anyKeyword (lowerStr q) greeting_keywords = false)
    (h6 : anyKeyword (lowerStr q) outlet_names = false) :
    detect_intent q = (Intent.UNKNOWN, 0) := by
  unfold detect_intent intentScores baseScores
  simp [h1, h2, h3, h4, h5, h6]

/-- Witness for C6 at the keyword-free query "xyzzy". -/
theorem C6_no_keyword_unknown_witness :
    anyKeyword (lowerStr "xyzzy") math_keywords = false ∧
    anyKeyword (lowerStr "xyzzy") time_keywords = false ∧
    anyKeyword (lowerStr "xyzzy") outlet_keywords = false ∧
    anyKeyword (lowerStr "xyzzy") product_keywords = false ∧
    anyKeyword (lowerStr "xyzzy") greeting_keywords = false ∧
    anyKeyword (lowerStr "xyzzy") outlet_names = false ∧
    detect_intent "xyzzy" = (Intent.UNKNOWN, 0) :=
  ⟨by decide, by decide, by decide, by decide, by decide, by decide,
   C6_no_keyword_unknown "xyzzy" (by decide) (by decide) (by decide)
     (by decide) (by decide) (by decide)⟩

/-- C8: `calculate` returns a+b, a-b, a*b for the add, sub, mul tags and
a/b for div with a non-zero divisor, and fails exactly when dividing by
zero or when given a tag outside add, sub, mul, div. -/
theorem C8_calculate_spec (a b : ℚ) (op : String) :
    (op = "add" → calculate a b op = Except.ok (a + b)) ∧
    (op = "sub" → calculate a b op = Except.ok (a - b)) ∧
    (op = "mul" → calculate a b op = Except.ok (a * b)) ∧
    (op = "div" → b ≠ 0 → calculate a b op = Except.ok (a / b)) ∧
    (calcIsError (calculate a b op) = true ↔
      (op = "div" ∧ b = 0) ∨ op ∉ (["add", "sub", "mul", "div"] : List String)) := by
  refine ⟨?_, ?_, ?_, ?_, ?_⟩
  · intro h; subst h; rfl
  · intro h; subst h; rfl
  · intro h; subst h; rfl
  · intro h hb; subst h
    unfold calculate
    rw [if_neg (by decide), if_neg (by decide), if_neg (by decide),
      if_pos rfl, if_neg hb]
  · by_cases ha : op = "add"
    · subst ha; simp [calculate, calcIsError]
    · by_cases hs : op = "sub"
      · subst hs; simp [calculate, calcIsError]
      · by_cases hm : op = "mul"
        · subst hm; simp [calculate, calcIsError]
        · by_cases hd : op = "div"
          · subst hd
            by_cases hb : b = 0
            · subst hb
              simp [calculate, calcIsError]
            · simp [calculate, calcIsError, hb]
          · simp [calculate, calcIsError, ha, hs, hm, hd]

/-- Witness for C8: addition at 1, 2 and the division-by-zero failure at
10, 0. -/
theorem C8_calculate_spec_witness :
    calculate 1 2 "add" = Except.ok (1 + 2) ∧
    calcIsError (calculate 10 0 "div") = true :=
  ⟨(C8_calculate_spec 1 2 "add").1 rfl,
   (C8_calculate_spec 10 0 "div").2.2.2.2.mpr (Or.inl ⟨rfl, rfl⟩)⟩

/-- After overwriting the key `i` in place, the first entry with key `i`
holds the new value. -/
theorem find?_map_overwrite (t : List (Intent × Nat)) (i : Intent) (v : Nat)
    (ht : t.any (fun p => decide (p.1 = i)) = true) :
    (t.map (fun p => if p.1 = i then (i, v) else p)).find?
      (fun p => decide (p.1 = i)) = some (i, v) := by
  induction t with
  | nil => simp at ht
  | cons x t ih =>
    by_cases hx : x.1 = i
    · have hfx : (if x.1 = i then ((i, v) : Intent × Nat) else x) = (i, v) := if_pos hx
      simp only [List.map_cons, hfx]
      exact List.find?_cons_of_pos _ (by simp)
    · have hfx : (if x.1 = i then ((i, v) : Intent × Nat) else x) = x := if_neg hx
      have ht' : t.any (fun p => decide (p.1 = i)) = true := by
        simpa [List.any_cons, hx] using ht
      simp only [List.map_cons, hfx]
      rw [List.find?_cons_of_neg _ (by simp [hx])]
      exact ih ht'

/-- Appending a fresh key at the end makes it the first entry with that
key when the key was absent before. -/
theorem find?_append_key (t : List (Intent × Nat)) (i : Intent) (v : Nat)
    (ht : t.any (fun p => decide (p.1 = i)) = false) :
    (t ++ [(i, v)]).find? (fun p => decide (p.1 = i)) = some (i, v) := by
  induction t with
  | nil => simp
  | cons x t ih =>
    simp only [List.any_cons, Bool.or_eq_false_iff] at ht
    rw [List.cons_append, List.find?_cons_of_neg _ (by simp [ht.1])]
    exact ih ht.2

/-- Score lookup after a Python dict assignment: the assigned key holds
the assigned value, wherever it sits in the list. -/
theorem scoreOf_setScore (l : List (Intent × Nat)) (i : Intent) (v : Nat) :
    scoreOf i (setScore l i v) = some v := by
  unfold setScore scoreOf
  by_cases hl : l.any (fun p => decide (p.1 = i)) = true
  · rw [if_pos hl, find?_map_overwrite l i v hl]
    rfl
  · have hl' : l.any (fun p => decide (p.1 = i)) = false := by
      cases hb : l.any (fun p => decide (p.1 = i)) with
      | false => rfl
      | true => exact absurd hb hl
    rw [if_neg hl, find?_append_key l i v hl']
    rfl

/-- C7 (amended): a query containing one of the outlet proper names in the
classifier's internal list gets TIME_INQUIRY forced to score 0.9 (90). -/
theorem C7_amended_outlet_name_forces_time (q : String)
    (h : anyKeyword (lowerStr q) outlet_names = true) :
    scoreOf Intent.TIME_INQUIRY (intentScores q) = some 90 := by
  unfold intentScores
  rw [if_pos h]
  exact scoreOf_setScore _ _ _

/-- Witness for the amended C7 at the query "damansara opening". -/
theorem C7_amended_witness :
    anyKeyword (lowerStr "damansara opening") outlet_names = true ∧
    scoreOf Intent.TIME_INQUIRY (intentScores "damansara opening") = some 90 :=
  ⟨by decide, C7_amended_outlet_name_forces_time "damansara opening" (by decide)⟩

/-- A truthy optional string is in particular non-null. -/
theorem optTruthy_isSome (o : Option String) (h : optTruthy o = true) :
    o.isSome = true := by
  cases o with
  | none => simp [optTruthy] at h
  | some s => rfl

/-- The state-update rule never touches the conversation history. -/
theorem update_state_history (m : ConversationMemory) (i : Intent)
    (e : Entities) :
    (update_state m i e).conversation_history = m.conversation_history := by
  unfold update_state
  split_ifs <;> first | rfl | (split <;> rfl)

/-- The outlet handler returns the memory with at most the location
confirmed. -/
theorem handle_outlet_inquiry_fst (m : ConversationMemory) (e : Entities) :
    (handle_outlet_inquiry m e).1 = outlet_inquiry_mem m e := by
  unfold handle_outlet_inquiry outlet_inquiry_mem
  cases e.location with
  | none => rfl
  | some loc =>
    dsimp only
    split <;> rfl

/-- The time handler returns the memory with at most the outlet
confirmed. -/
theorem handle_time_inquiry_fst (m : ConversationMemory) (e : Entities) :
    (handle_time_inquiry m e).1 = time_inquiry_mem m e := by
  unfold handle_time_inquiry
  dsimp only
  split <;> first
    | rfl
    | (split <;> first
        | rfl
        | (split <;> rfl))

/-- Memory effect of one dispatched turn: only the outlet and time
handlers touch memory. -/
theorem dispatch_fst (rag : String → String) (m : ConversationMemory)
    (i : Intent) (e : Entities) (q : String) :
    (dispatch rag m i e q).1 =
      if i = Intent.OUTLET_INQUIRY then outlet_inquiry_mem m e
      else if i = Intent.TIME_INQUIRY then time_inquiry_mem m e
      else m := by
  cases i <;>
    simp [dispatch, handle_outlet_inquiry_fst, handle_time_inquiry_fst]

/-- The dispatched handlers never touch the conversation history. -/
theorem dispatch_history (rag : String → String) (m : ConversationMemory)
    (i : Intent) (e : Entities) (q : String) :
    (dispatch rag m i e q).1.conversation_history = m.conversation_history := by
  rw [dispatch_fst]
  split_ifs
  · unfold outlet_inquiry_mem; cases e.location <;> rfl
  · unfold time_inquiry_mem; cases e.outlet <;> rfl
  · rfl

/-- C3 (amended): a `respond` call on input that is not empty and not
whitespace-only appends exactly one history entry, carrying this turn's
raw input, the produced reply, the detected intent label, and the
(non-empty) clock timestamp; empty or whitespace-only input is rejected
before the history append (see the counterexample). -/
theorem C3_amended_history_append (rag : String → String)
    (m : ConversationMemory) (q ts : String)
    (hq : pyStrBlank q = false) (hts : ts ≠ "") :
    (respond rag m q ts).1.conversation_history =
      m.conversation_history ++
        [{ user_input := q, bot_response := (respond rag m q ts).2,
           intent := ((detect_intent q).1).value, timestamp := ts }] ∧
    ts ≠ "" := by
  refine ⟨?_, hts⟩
  simp only [respond, hq, Bool.false_eq_true, if_false, add_interaction]
  rw [dispatch_history, update_state_history]

/-- C3 counterexample: the `respond` call on the empty query completes
(returning the fixed validation message) but appends no history entry,
refuting the claim for the empty-input error path. -/
theorem C3_counterexample_empty_input :
    (respond rag0 initialMemory "" "2026-10-12 00:00:00").2 =
      "I didn't catch that. Could you please repeat your question?" ∧
    (respond rag0 initialMemory "" "2026-10-12 00:00:00").1.conversation_history = [] := by
  refine ⟨rfl, rfl⟩

/-- Witness for the amended C3 at the query "hello". -/
theorem C3_amended_witness :
    pyStrBlank "hello" = false ∧ "t0" ≠ "" ∧
    ((respond rag0 initialMemory "hello" "t0").1.conversation_history =
      initialMemory.conversation_history ++
        [{ user_input := "hello",
           bot_response := (respond rag0 initialMemory "hello" "t0").2,
           intent := ((detect_intent "hello").1).value, timestamp := "t0" }] ∧
     "t0" ≠ "") :=
  ⟨by decide, by decide,
   C3_amended_history_append rag0 initialMemory "hello" "t0" (by decide) (by decide)⟩

/-- The state-update rule preserves the memory invariant. -/
theorem update_state_inv (m : ConversationMemory) (i : Intent) (e : Entities)
    (h : memInv m) : memInv (update_state m i e) := by
  unfold update_state
  split_ifs with h1 h2 h3 h4
  · exact ⟨fun hc => by rcases hc with hc | hc <;> simp at hc, fun _ => h1.2⟩
  · exact ⟨fun _ => h2.2, fun hc => by simp at hc⟩
  · exact ⟨fun _ => optTruthy_isSome _ h3.2, fun hc => by simp at hc⟩
  · split
    · exact ⟨fun _ => rfl, fun hc => by simp at hc⟩
    · exact h
  · exact h

/-- The outlet handler's memory effect preserves the invariant. -/
theorem outlet_inquiry_mem_inv (m : ConversationMemory) (e : Entities)
    (h : memInv m) : memInv (outlet_inquiry_mem m e) := by
  unfold outlet_inquiry_mem
  cases e.location with
  | none => exact h
  | some loc => exact ⟨fun hc => by rcases hc with hc | hc <;> simp at hc, fun _ => rfl⟩

/-- The time handler's memory effect preserves the invariant. -/
theorem time_inquiry_mem_inv (m : ConversationMemory) (e : Entities)
    (h : memInv m) : memInv (time_inquiry_mem m e) := by
  unfold time_inquiry_mem
  cases e.outlet with
  | none => exact h
  | some o => exact ⟨fun _ => rfl, fun hc => by simp at hc⟩

/-- Dispatching preserves the memory invariant. -/
theorem dispatch_inv (rag : String → String) (m : ConversationMemory)
    (i : Intent) (e : Entities) (q : String) (h : memInv m) :
    memInv ((dispatch rag m i e q).1) := by
  rw [dispatch_fst]
  split_ifs
  · exact outlet_inquiry_mem_inv m e h
  · exact time_inquiry_mem_inv m e h
  · exact h

/-- A history append does not affect the invariant fields. -/
theorem add_interaction_inv (m : ConversationMemory) (a b c d : String)
    (h : memInv m) : memInv (add_interaction m a b c d) :=
  h

/-- A full `respond` turn preserves the memory invariant. -/
theorem respond_inv (rag : String → String) (m : ConversationMemory)
    (q ts : String) (h : memInv m) : memInv ((respond rag m q ts).1) := by
  unfold respond
  split_ifs with hb
  · exact h
  · exact add_interaction_inv _ _ _ _ _
      (dispatch_inv rag _ _ _ q (update_state_inv m _ _ h))

/-- A reset re-establishes the invariant (trivially, at INITIAL). -/
theorem reset_conversation_inv (m : ConversationMemory) :
    memInv (reset_conversation m) :=
  ⟨fun hc => by rcases hc with hc | hc <;> simp [reset_conversation, ConversationMemory.reset] at hc,
   fun hc => by simp [reset_conversation, ConversationMemory.reset] at hc⟩

/-- C2: after any sequence of `respond` and reset calls from a fresh
agent (so in particular after every prefix of such a sequence), the
memory invariant holds: OUTLET_CONFIRMED or COMPLETED implies a non-null
outlet, LOCATION_CONFIRMED implies a non-null location. -/
theorem C2_memory_invariant (rag : String → String) (calls : List Call) :
    memInv (runCalls rag initialMemory calls) := by
  have hstep : ∀ (m : ConversationMemory) (c : Call),
      memInv m → memInv (stepCall rag m c) := by
    intro m c h
    cases c with
    | respond q ts => exact respond_inv rag m q ts h
    | reset => exact reset_conversation_inv m
  have hrun : ∀ (l : List Call) (m : ConversationMemory),
      memInv m → memInv (runCalls rag m l) := by
    intro l
    induction l with
    | nil => intro m h; exact h
    | cons c t ih => intro m h; exact ih _ (hstep m c h)
  exact hrun calls initialMemory (by decide)

/-- The state-update rule leaves the state unchanged or sets a
non-INITIAL state. -/
theorem update_state_current (m : ConversationMemory) (i : Intent)
    (e : Entities) :
    (update_state m i e).current_state = m.current_state ∨
    (update_state m i e).current_state ≠ ConversationState.INITIAL := by
  unfold update_state
  split_ifs
  · right; simp
  · right; simp
  · right; simp
  · split
    · right; simp
    · left; rfl
  · left; rfl

/-- The dispatched handlers leave the state unchanged or set a
non-INITIAL state. -/
theorem dispatch_current (rag : String → String) (m : ConversationMemory)
    (i : Intent) (e : Entities) (q : String) :
    (dispatch rag m i e q).1.current_state = m.current_state ∨
    (dispatch rag m i e q).1.current_state ≠ ConversationState.INITIAL := by
  rw [dispatch_fst]
  split_ifs
  · unfold outlet_inquiry_mem
    cases e.location with
    | none => left; rfl
    | some loc => right; simp
  · unfold time_inquiry_mem
    cases e.outlet with
    | none => left; rfl
    | some o => right; simp
  · left; rfl

/-- C4 (amended): a `respond` call either leaves the conversation state
unchanged or sets one of LOCATION_CONFIRMED, OUTLET_CONFIRMED,
COMPLETED, so the state never returns to INITIAL except through an
explicit reset.  (The forward-only part of the original claim is false:
see the counterexample, where a location inquiry moves COMPLETED back to
LOCATION_CONFIRMED.) -/
theorem C4_amended_never_back_to_initial (rag : String → String)
    (m : ConversationMemory) (q ts : String) :
    (respond rag m q ts).1.current_state = m.current_state ∨
    (respond rag m q ts).1.current_state ≠ ConversationState.INITIAL := by
  unfold respond
  split_ifs with hb
  · left; rfl
  · have hd := dispatch_current rag
      (update_state m (detect_intent q).1 (extract_entities q))
      (detect_intent q).1 (extract_entities q) q
    have hu := update_state_current m (detect_intent q).1 (extract_entities q)
    rcases hd with hd | hd
    · rcases hu with hu | hu
      · left
        show (dispatch rag (update_state m (detect_intent q).1 (extract_entities q))
          (detect_intent q).1 (extract_entities q) q).1.current_state = m.current_state
        rw [hd, hu]
      · right
        show (dispatch rag (update_state m (detect_intent q).1 (extract_entities q))
          (detect_intent q).1 (extract_entities q) q).1.current_state ≠
            ConversationState.INITIAL
        rw [hd]; exact hu
    · right
      exact hd

/-- C4 counterexample: after the three-turn flow that reaches COMPLETED,
a fourth `respond` asking about outlets in Petaling Jaya moves the state
backward to LOCATION_CONFIRMED (rank 1 < rank 3), refuting the
strictly-forward claim. -/
theorem C4_counterexample_backward_move :
    (runCalls rag0 initialMemory
      [Call.respond "Is there an outlet in Petaling Jaya?" "t1",
       Call.respond "SS 2, what's the opening time?" "t2",
       Call.respond "What time does it open?" "t3"]).current_state =
      ConversationState.COMPLETED ∧
    (runCalls rag0 initialMemory
      [Call.respond "Is there an outlet in Petaling Jaya?" "t1",
       Call.respond "SS 2, what's the opening time?" "t2",
       Call.respond "What time does it open?" "t3",
       Call.respond "Is there an outlet in Petaling Jaya?" "t4"]).current_state =
      ConversationState.LOCATION_CONFIRMED ∧
    stateRank ConversationState.LOCATION_CONFIRMED <
      stateRank ConversationState.COMPLETED := by
  refine ⟨by decide, by decide, by decide⟩

/-- C7 counterexample: "klcc" is a supported outlet name, yet the
classifier assigns TIME_INQUIRY no score at all for the bare query "klcc"
(its internal outlet-name list omits klcc, 1 utama, mid valley, ioi mall),
so the claimed forced 0.9 for every supported outlet name is false. -/
theorem C7_counterexample_klcc :
    "klcc" ∈ supported_outlets ∧
    containsSub (lowerStr "klcc") "klcc" = true ∧
    scoreOf Intent.TIME_INQUIRY (intentScores "klcc") = none ∧
    detect_intent "klcc" = (Intent.UNKNOWN, 0) := by
  refine ⟨by decide, by decide, by decide, by decide⟩

/-- C9: a non-blank query classified CALCULATION with at least two
numbers, a detected divide operator and a zero second number makes
`respond` return the apologetic calculator-failure string (the
calculator's division-by-zero error is caught, never propagated). -/
theorem C9_division_by_zero_apology (rag : String → String)
    (m : ConversationMemory) (q ts : String)
    (hb : pyStrBlank q = false)
    (hi : (detect_intent q).1 = Intent.CALCULATION)
    (hn : 2 ≤ (extractNumbers q).length)
    (hop : detectOp (lowerStr q) = some "div")
    (h0 : (extractNumbers q).get? 1 = some 0) :
    (respond rag m q ts).2 =
      "Sorry, I couldn't calculate that. Please try again." := by
  have hr : (respond rag m q ts).2 = handle_calculation q := by
    simp only [respond, hb, Bool.false_eq_true, if_false, hi, dispatch, if_pos]
  rw [hr]
  unfold handle_calculation
  rcases hE : extractNumbers q with _ | ⟨a, _ | ⟨b, t⟩⟩
  · rw [hE] at hn; simp at hn
  · rw [hE] at hn; simp at hn
  · rw [hE] at h0
    simp only [List.get?_cons_succ, List.get?_cons_zero, Option.some.injEq] at h0
    subst h0
    dsimp only
    rw [hop]
    have hc : calculate a 0 "div" =
        Except.error "Division by zero is not allowed." := by
      unfold calculate
      rw [if_neg (by decide), if_neg (by decide), if_neg (by decide),
        if_pos rfl, if_pos rfl]
    dsimp only
    rw [hc]

/-- Witness for C9 at the query "What is 10 divided by 0?". -/
theorem C9_division_by_zero_witness :
    pyStrBlank "What is 10 divided by 0?" = false ∧
    (detect_intent "What is 10 divided by 0?").1 = Intent.CALCULATION ∧
    2 ≤ (extractNumbers "What is 10 divided by 0?").length ∧
    detectOp (lowerStr "What is 10 divided by 0?") = some "div" ∧
    (extractNumbers "What is 10 divided by 0?").get? 1 = some 0 ∧
    (respond rag0 initialMemory "What is 10 divided by 0?" "t0").2 =
      "Sorry, I couldn't calculate that. Please try again." :=
  ⟨by decide, by decide, by decide, by decide, by decide,
   C9_division_by_zero_apology rag0 initialMemory "What is 10 divided by 0?" "t0"
     (by decide) (by decide) (by decide) (by decide) (by decide)⟩

/-- The Python `max` fold never returns something below its seed. -/
theorem foldl_pyMax_ge_seed (ps : List (Intent × Nat)) (p : Intent × Nat) :
    p.2 ≤ (ps.foldl pyMaxStep p).2 := by
  induction ps generalizing p with
  | nil => exact le_refl _
  | cons x t ih =>
    rw [List.foldl_cons]
    refine le_trans ?_ (ih (pyMaxStep p x))
    unfold pyMaxStep
    split_ifs with h
    · exact le_of_lt h
    · exact le_refl _

/-- The Python `max` fold returns the first element attaining the maximal
score: either the seed (when nothing beats it) or an element of the list
strictly above the seed and everything before it, with nothing after it
strictly above it. -/
theorem foldl_pyMax_decomp (ps : List (Intent × Nat)) (p : Intent × Nat) :
    (ps.foldl pyMaxStep p = p ∧ ∀ x ∈ ps, x.2 ≤ p.2) ∨
    (∃ l₁ l₂, ps = l₁ ++ (ps.foldl pyMaxStep p) :: l₂ ∧
      p.2 < (ps.foldl pyMaxStep p).2 ∧
      (∀ x ∈ l₁, x.2 < (ps.foldl pyMaxStep p).2) ∧
      (∀ x ∈ l₂, x.2 ≤ (ps.foldl pyMaxStep p).2)) := by
  induction ps generalizing p with
  | nil => left; exact ⟨rfl, by simp⟩
  | cons x t ih =>
    rw [List.foldl_cons]
    by_cases hx : p.2 < x.2
    · have hstep : pyMaxStep p x = x := if_pos hx
      rw [hstep]
      rcases ih x with ⟨heq, hall⟩ | ⟨l₁, l₂, hsplit, hlt, h1, h2⟩
      · right
        refine ⟨[], t, ?_, ?_, ?_, ?_⟩
        · rw [heq]; rfl
        · rw [heq]; exact hx
        · intro y hy; simp at hy
        · rw [heq]; exact hall
      · right
        refine ⟨x :: l₁, l₂, ?_, lt_trans hx hlt, ?_, h2⟩
        · rw [List.cons_append, ← hsplit]
        · intro y hy
          rcases List.mem_cons.mp hy with hy | hy
          · rw [hy]; exact hlt
          · exact h1 y hy
    · have hstep : pyMaxStep p x = p := if_neg hx
      rw [hstep]
      have hxle : x.2 ≤ p.2 := Nat.le_of_not_lt hx
      rcases ih p with ⟨heq, hall⟩ | ⟨l₁, l₂, hsplit, hlt, h1, h2⟩
      · left
        refine ⟨heq, ?_⟩
        intro y hy
        rcases List.mem_cons.mp hy with hy | hy
        · rw [hy]; rw [heq] at *; exact hxle
        · exact hall y hy
      · right
        refine ⟨x :: l₁, l₂, ?_, hlt, ?_, h2⟩
        · rw [List.cons_append, ← hsplit]
        · intro y hy
          rcases List.mem_cons.mp hy with hy | hy
          · rw [hy]; exact lt_of_le_of_lt hxle hlt
          · exact h1 y hy

/-- C5 (amended): when at least one category scores, `detect_intent`
returns an entry of the score table of maximal score, the first such
entry in Python dict insertion order (everything inserted before it
scores strictly less, everything after it scores no more).  The
insertion order is not a fixed category priority: TIME_INQUIRY sits
early when a time keyword fired and last when only the outlet-name
override inserted it (see the counterexample). -/
theorem C5_amended_first_of_maximal (q : String) (h : intentScores q ≠ []) :
    ∃ l₁ l₂,
      intentScores q = l₁ ++ (detect_intent q) :: l₂ ∧
      (∀ x ∈ l₁, x.2 < (detect_intent q).2) ∧
      (∀ x ∈ l₂, x.2 ≤ (detect_intent q).2) := by
  rcases hS : intentScores q with _ | ⟨p, ps⟩
  · exact absurd hS h
  · have hd : detect_intent q = ps.foldl pyMaxStep p := by
      unfold detect_intent; rw [hS]
    rw [hd]
    rcases foldl_pyMax_decomp ps p with ⟨heq, hall⟩ | ⟨l₁, l₂, hsplit, hlt, h1, h2⟩
    · refine ⟨[], ps, ?_, by simp, ?_⟩
      · rw [heq]; rfl
      · rw [heq]; exact hall
    · refine ⟨p :: l₁, l₂, ?_, ?_, h2⟩
      · rw [List.cons_append, ← hsplit]
      · intro y hy
        rcases List.mem_cons.mp hy with hy | hy
        · rw [hy]; exact hlt
        · exact h1 y hy

/-- Witness for the amended C5 at the query "hello damansara". -/
theorem C5_amended_witness :
    intentScores "hello damansara" ≠ [] ∧
    (∃ l₁ l₂,
      intentScores "hello damansara" =
        l₁ ++ (detect_intent "hello damansara") :: l₂ ∧
      (∀ x ∈ l₁, x.2 < (detect_intent "hello damansara").2) ∧
      (∀ x ∈ l₂, x.2 ≤ (detect_intent "hello damansara").2)) :=
  ⟨by decide, C5_amended_first_of_maximal "hello damansara" (by decide)⟩

/-- C5 counterexample: no fixed injective-like category priority breaks
the ties of `detect_intent`.  On "hello damansara" both GREETING and
TIME_INQUIRY score 0.9 and GREETING wins (the override appended
TIME_INQUIRY last); on "hello when damansara" the same two categories tie
at 0.9 and TIME_INQUIRY wins (the time keyword inserted it early), so no
priority function can order the two categories consistently. -/
theorem C5_counterexample_no_fixed_priority :
    ¬ ∃ prio : Intent → Nat,
        ∀ q : String, intentScores q ≠ [] →
          (∀ p ∈ intentScores q, p.2 ≤ (detect_intent q).2) ∧
          (∀ p ∈ intentScores q, p.2 = (detect_intent q).2 →
            p.1 ≠ (detect_intent q).1 →
            prio (detect_intent q).1 < prio p.1) := by
  rintro ⟨prio, h⟩
  have e1 : detect_intent "hello damansara" = (Intent.GREETING, 90) := by decide
  have m1 : (Intent.TIME_INQUIRY, 90) ∈ intentScores "hello damansara" := by decide
  have e2 : detect_intent "hello when damansara" = (Intent.TIME_INQUIRY, 90) := by decide
  have m2 : (Intent.GREETING, 90) ∈ intentScores "hello when damansara" := by decide
  have ha : prio Intent.GREETING < prio Intent.TIME_INQUIRY := by
    have h1 := (h "hello damansara" (by decide)).2 (Intent.TIME_INQUIRY, 90) m1
    rw [e1] at h1
    exact h1 rfl (by decide)
  have hb : prio Intent.TIME_INQUIRY < prio Intent.GREETING := by
    have h2 := (h "hello when damansara" (by decide)).2 (Intent.GREETING, 90) m2
    rw [e2] at h2
    exact h2 rfl (by decide)
  omega

/-- When the turn names no outlet but memory remembers one of the six
names the directory resolves, the time handler's reply reports that
outlet's database record. -/
theorem time_inquiry_reply_known (m : ConversationMemory) (e : Entities)
    (o : String) (he : e.outlet = none) (hm : m.outlet = some o)
    (ho : o ≠ "") (hsix : o ∈ outlet_names) :
    ∃ r, recordForOutlet o = some r ∧
      (handle_time_inquiry m e).2 =
        "The " ++ r.name ++ " outlet opening hours: " ++ r.opening_hours ++ "." := by
  have htr : optTruthy m.outlet = true := by rw [hm]; simp [optTruthy, ho]
  have hm1 : time_inquiry_mem m e = m := by
    unfold time_inquiry_mem; rw [he]
  unfold handle_time_inquiry
  dsimp only
  rw [hm1, htr]
  simp only [if_true]
  rw [hm]
  fin_cases hsix
  · refine ⟨zusSS2, by decide, ?_⟩
    rw [if_pos (show optTruthy (some "ss 2") = true by decide),
      show query_outlets ("opening hours for " ++ (some "ss 2").getD "" ++ " outlet") =
        [zusSS2] from by decide]
  · refine ⟨zusSS2, by decide, ?_⟩
    rw [if_pos (show optTruthy (some "ss2") = true by decide),
      show query_outlets ("opening hours for " ++ (some "ss2").getD "" ++ " outlet") =
        [zusSS2] from by decide]
  · refine ⟨zusDamansara, by decide, ?_⟩
    rw [if_pos (show optTruthy (some "damansara") = true by decide),
      show query_outlets ("opening hours for " ++ (some "damansara").getD "" ++ " outlet") =
        [zusDamansara] from by decide]
  · refine ⟨zusBukitBintang, by decide, ?_⟩
    rw [if_pos (show optTruthy (some "bukit bintang") = true by decide),
      show query_outlets ("opening hours for " ++ (some "bukit bintang").getD "" ++ " outlet") =
        [zusBukitBintang] from by decide]
  · refine ⟨zusSubang, by decide, ?_⟩
    rw [if_pos (show optTruthy (some "subang") = true by decide),
      show query_outlets ("opening hours for " ++ (some "subang").getD "" ++ " outlet") =
        [zusSubang] from by decide]
  · refine ⟨zusPuchong, by decide, ?_⟩
    rw [if_pos (show optTruthy (some "puchong") = true by decide),
      show query_outlets ("opening hours for " ++ (some "puchong").getD "" ++ " outlet") =
        [zusPuchong] from by decide]

/-- C1 (amended): with a remembered (truthy) outlet, a non-blank query
classified TIME_INQUIRY whose entities lack an outlet drives the state to
COMPLETED with confidence 0.95; and when the remembered name is one of
the six the classifier and directory know (ss 2, ss2, damansara, bukit
bintang, subang, puchong) the reply reports that outlet's opening hours.
For other remembered names (klcc, mid valley, 1 utama, one utama, ioi
mall) the state transition still happens but the reply can name a
different outlet (see the counterexample). -/
theorem C1_amended_followup (rag : String → String) (m : ConversationMemory)
    (q ts o : String)
    (hm : m.outlet = some o) (ho : o ≠ "")
    (hb : pyStrBlank q = false)
    (hi : (detect_intent q).1 = Intent.TIME_INQUIRY)
    (he : (extract_entities q).outlet = none) :
    (respond rag m q ts).1.current_state = ConversationState.COMPLETED ∧
    (respond rag m q ts).1.confidence_score = 95 ∧
    (o ∈ outlet_names →
      ∃ r, recordForOutlet o = some r ∧
        (respond rag m q ts).2 =
          "The " ++ r.name ++ " outlet opening hours: " ++ r.opening_hours ++ ".") := by
  have htr : optTruthy m.outlet = true := by rw [hm]; simp [optTruthy, ho]
  have hup : update_state m Intent.TIME_INQUIRY (extract_entities q) =
      { m with current_state := ConversationState.COMPLETED,
               confidence_score := 95 } := by
    unfold update_state
    rw [if_neg (by simp), if_neg (by simp [he]), if_pos ⟨rfl, htr⟩]
  have hsnd : (respond rag m q ts).2 =
      (handle_time_inquiry
        (update_state m Intent.TIME_INQUIRY (extract_entities q))
        (extract_entities q)).2 := by
    simp only [respond, hb, Bool.false_eq_true, if_false, hi, dispatch, if_true]
    rw [if_neg (by simp), if_neg (by simp)]
  have hfst : (respond rag m q ts).1.current_state = ConversationState.COMPLETED ∧
      (respond rag m q ts).1.confidence_score = 95 := by
    simp only [respond, hb, Bool.false_eq_true, if_false, hi]
    rw [hup, dispatch_fst, if_neg (by simp), if_pos rfl]
    unfold time_inquiry_mem
    rw [he]
    exact ⟨rfl, rfl⟩
  refine ⟨hfst.1, hfst.2, fun hsix => ?_⟩
  rw [hsnd]
  refine time_inquiry_reply_known _ _ o he ?_ ho hsix
  rw [hup]
  exact hm

/-- Witness for the amended C1: remembered outlet "ss 2" and the
follow-up "What time does it open?". -/
theorem C1_amended_witness :
    ((respond rag0 { outlet := some "ss 2" } "What time does it open?" "t0").1.current_state =
      ConversationState.COMPLETED ∧
    (respond rag0 { outlet := some "ss 2" } "What time does it open?" "t0").1.confidence_score = 95 ∧
    ("ss 2" ∈ outlet_names →
      ∃ r, recordForOutlet "ss 2" = some r ∧
        (respond rag0 { outlet := some "ss 2" } "What time does it open?" "t0").2 =
          "The " ++ r.name ++ " outlet opening hours: " ++ r.opening_hours ++ ".")) :=
  C1_amended_followup rag0 { outlet := some "ss 2" } "What time does it open?"
    "t0" "ss 2" rfl (by decide) (by decide) (by decide) (by decide)

/-- C1 counterexample: with remembered outlet "klcc" (reachable, e.g. via
"What time does klcc open"), the follow-up still reaches COMPLETED with
confidence 0.95, but the reply reports Bukit Bintang's hours — the
text-to-SQL lookup maps "kl" to Kuala Lumpur — and contains neither
KLCC's name nor KLCC's actual hours ("9:00 AM - 10:00 PM"), refuting the
claim's reply clause for arbitrary non-null remembered outlets. -/
theorem C1_counterexample_klcc_reply :
    (respond rag0 { outlet := some "klcc" } "What time does it open?" "t0").1.current_state =
      ConversationState.COMPLETED ∧
    (respond rag0 { outlet := some "klcc" } "What time does it open?" "t0").2 =
      "The ZUS Coffee Bukit Bintang outlet opening hours: 10:00 AM - 12:00 AM." ∧
    zusKLCC.opening_hours = "9:00 AM - 10:00 PM" ∧
    containsSub
      ((respond rag0 { outlet := some "klcc" } "What time does it open?" "t0").2)
      "9:00 AM - 10:00 PM" = false ∧
    containsSub
      (lowerStr (respond rag0 { outlet := some "klcc" } "What time does it open?" "t0").2)
      "klcc" = false := by
  refine ⟨by decide, by decide, by decide, by decide, by decide⟩

end Chatbot
